import Mathlib

/-!
Verification development for the gmail-api-client repository.

The Go sources are shallowly embedded: each relevant Go function becomes an
executable Lean definition over explicit state / event traces, and the
specification's claims become theorems about those definitions.

Covered code:
* `internal/retry.go` — `IsRetryableError`, `CalculateBackoff`, `RetryOperation`
* `cmd/gmail-api-transport/main.go` — `main`, `validateConfig`,
  `validateAndRefreshToken`, `isRetryableError`, `retryOperation`,
  `deliverMessage`, and the oauth package appended to that file
  (`LoadToken`, `SaveToken`, `acquireFileLock`, `TokenChanged`,
  `SaveTokenIfChanged`, `RefreshAndSaveToken`, `GetFilePermissions`)
* `internal` config helpers (`ValidateCommon`)
* the historical revisions in `src/unnamed/part_000` and `src/unnamed/part_001`
-/

namespace Gmail

/-! ## Strings: Go `strings.Contains`

Error classification in the Go code pattern-matches substrings of an error's
textual message.  We model Go strings as Lean `String` and re-implement
`strings.Contains` executably over the character list. -/

/-- `needle` is a prefix of `hay` (character lists). -/
def isPrefixChars : List Char → List Char → Bool
  | [], _ => true
  | _ :: _, [] => false
  | a :: as, b :: bs => a == b && isPrefixChars as bs

/-- `needle` occurs as a contiguous substring of `hay` (character lists). -/
def containsAux (needle : List Char) : List Char → Bool
  | [] => isPrefixChars needle []
  | c :: rest => isPrefixChars needle (c :: rest) || containsAux needle rest

/-- Go `strings.Contains hay needle`, argument order needle-first. -/
def containsSub (needle hay : String) : Bool :=
  containsAux needle.data hay.data

/-! ## Error model and failure classifiers

A Go `error` reaching the classifiers is either a structured
`*googleapi.Error` (carrying an HTTP status code) or a generic error whose
only observable is its message string (`err.Error()`). -/

/-- A Go error value as observed by the retry classifiers. -/
inductive GoError
  /-- A `*googleapi.Error` with its HTTP status code. -/
  | apiError (code : Int)
  /-- Any other error, observed through its message string. -/
  | strError (msg : String)
deriving DecidableEq

/-- `internal/retry.go` `IsRetryableError`, restricted to string errors
(the `*googleapi.Error` branch is handled separately in `IsRetryableError`).
Mirrors the if-chain of lines 29–59. -/
def isRetryableStrInternal (s : String) : Bool :=
  if containsSub "context deadline exceeded" s then true
  else if containsSub "connection refused" s || containsSub "connection reset" s ||
      containsSub "timeout" s || containsSub "temporary failure" s ||
      containsSub "i/o timeout" s || containsSub "EOF" s ||
      containsSub "broken pipe" s || containsSub "UNAVAILABLE" s then true
  else if containsSub "oauth2" s || containsSub "token" s then false
  else if containsSub "authentication failed" s || containsSub "invalid credentials" s then false
  else false

/-- `internal/retry.go` `IsRetryableError` (lines 13–60).  `none` models a
`nil` error. -/
def IsRetryableError : Option GoError → Bool
  | none => false
  | some (.apiError code) => code == 429 || code ≥ 500
  | some (.strError s) => isRetryableStrInternal s

/-- `cmd/gmail-api-transport/main.go` `isRetryableError`, string-error part
(lines 388–409).  Unlike the shared classifier it checks neither `"EOF"`,
`"broken pipe"` nor `"UNAVAILABLE"`, and has no authentication clause. -/
def isRetryableStrMain (s : String) : Bool :=
  if containsSub "context deadline exceeded" s then true
  else if containsSub "connection refused" s || containsSub "connection reset" s ||
      containsSub "timeout" s || containsSub "temporary failure" s ||
      containsSub "i/o timeout" s then true
  else if containsSub "oauth2" s || containsSub "token" s then false
  else false

/-- `cmd/gmail-api-transport/main.go` `isRetryableError` (lines 372–410). -/
def isRetryableErrorMain : Option GoError → Bool
  | none => false
  | some (.apiError code) => code == 429 || code ≥ 500
  | some (.strError s) => isRetryableStrMain s

/-! ## Backoff and the retry loop

`CalculateBackoff` computes `baseDelay * 2^attempt` seconds capped at 60.
The Go code computes this in `float64`; for the positive integer delays the
program admits, the float computation is exact below the cap and saturates
at the cap above it, so the `Nat` model `min (base * 2^attempt) 60` is
faithful. -/

/-- `internal/retry.go` `CalculateBackoff` (lines 63–71), in whole seconds. -/
def CalculateBackoff (attempt baseDelay : Nat) : Nat :=
  min (baseDelay * 2 ^ attempt) 60

/-- Outcome of one invocation of a wrapped operation, as classified by the
retry loop: `success` is a `nil` error, `retryable` a retryable error,
`fatal` a non-retryable error. -/
inductive Outcome
  | success
  | retryable
  | fatal
deriving DecidableEq

/-- Observable actions of the retry loop: invoking the operation and
sleeping for a backoff (in seconds). -/
inductive REvent
  | invoke
  | sleep (seconds : Nat)
deriving DecidableEq

/-- Result of the retry loop: `ok` (nil), `failed` (non-retryable error
returned as-is), `exhausted` ("max retries exceeded" wrapping the last
error). -/
inductive RetryResult
  | ok
  | failed
  | exhausted
deriving DecidableEq

/-- The loop body of `internal/retry.go` `RetryOperation` (lines 89–112).
`ops i` is the outcome of the `i`-th invocation of `operation`; `fuel` is the
number of loop iterations remaining (`MaxRetries + 1 - attempt`).  Returns
the event trace and the final result. -/
def retryGo (delay : Nat) (ops : Nat → Outcome) : Nat → Nat → List REvent × RetryResult
  | _, 0 => ([], .exhausted)
  | attempt, fuel + 1 =>
    let pre : List REvent :=
      if attempt = 0 then [] else [.sleep (CalculateBackoff (attempt - 1) delay)]
    match ops attempt with
    | .success => (pre ++ [.invoke], .ok)
    | .fatal => (pre ++ [.invoke], .failed)
    | .retryable =>
      let r := retryGo delay ops (attempt + 1) fuel
      (pre ++ [.invoke] ++ r.1, r.2)

/-- `internal/retry.go` `RetryOperation` (lines 86–116): the loop runs
attempts `0 .. MaxRetries` inclusive. -/
def RetryOperation (maxRetries delay : Nat) (ops : Nat → Outcome) :
    List REvent × RetryResult :=
  retryGo delay ops 0 (maxRetries + 1)

/-- The `max_retries` defaulting performed by `validateConfig`
(`cmd/gmail-api-transport/main.go` lines 276–279) and by `ValidateCommon`
(`internal` config, identical check): a configured value `≤ 0` is replaced
by the default 3. -/
def validateMaxRetries (configured : Int) : Int :=
  if configured ≤ 0 then 3 else configured

/-! ## The token record and its JSON round-trip

`LoadToken` unmarshals the token file's JSON into Go's `oauth2.Token`
struct, whose exported, JSON-tagged fields are `access_token`,
`token_type` (omitempty), `refresh_token` (omitempty) and `expiry`
(omitempty); `encoding/json` silently discards keys that match no struct
field, and the struct has no catch-all for unknown keys.  `SaveToken`
serializes exactly those struct fields back.  We model the on-disk JSON
record as an association list from field name to (serialized) value, and
the in-memory token as the struct. -/

/-- In-memory form of Go's `oauth2.Token` as used by this program: the
JSON-tagged exported fields.  `expiry` holds the serialized timestamp
(`""` for the zero time). -/
structure Token where
  accessToken : String
  tokenType : String
  refreshToken : String
  expiry : String
deriving DecidableEq

/-- A persisted token file: JSON object fields in order. -/
def TokenFields := List (String × String)

/-- Look up a field value in a token file record. -/
def fieldOf (fields : List (String × String)) (key : String) : String :=
  match fields with
  | [] => ""
  | (k, v) :: rest => if k = key then v else fieldOf rest key

/-- `json.Unmarshal` of a token file into `oauth2.Token`, as performed by
`LoadToken` (`cmd/gmail-api-transport/main.go` oauth part, lines 656–668):
known fields are captured, every other field is discarded. -/
def unmarshalToken (fields : List (String × String)) : Token :=
  { accessToken := fieldOf fields "access_token"
    tokenType := fieldOf fields "token_type"
    refreshToken := fieldOf fields "refresh_token"
    expiry := fieldOf fields "expiry" }

/-- `json.MarshalIndent` of an `oauth2.Token`, as performed by `SaveToken`:
only the struct's own fields are written (`omitempty` drops empty ones). -/
def marshalToken (t : Token) : List (String × String) :=
  ("access_token", t.accessToken) ::
    ((if t.tokenType = "" then [] else [("token_type", t.tokenType)]) ++
     (if t.refreshToken = "" then [] else [("refresh_token", t.refreshToken)]) ++
     (if t.expiry = "" then [] else [("expiry", t.expiry)]))

/-- A load→save cycle on the persisted record: `LoadToken` then `SaveToken`
of the loaded value. -/
def loadSaveCycle (fields : List (String × String)) : List (String × String) :=
  marshalToken (unmarshalToken fields)

/-- The field names this system understands (the JSON tags of
`oauth2.Token`). -/
def knownTokenFields : List String :=
  ["access_token", "token_type", "refresh_token", "expiry"]

/-! ## Filesystem model for the save path

`SaveToken` (oauth part of `cmd/gmail-api-transport/main.go`, lines
706–764) writes the serialized token to a fresh temporary sibling file,
locks, writes, syncs and chmods that temporary file, then atomically
renames it over the target.  A deferred cleanup closes and removes the
temporary file on every exit taken before the rename; just before the
rename the handle is set to `nil`, disabling the cleanup.

The model tracks the target file (existence, permission bits, content) and
whether the call leaves its temporary file behind.  Each fallible step's
outcome is supplied by an environment `SaveEnv`. -/

/-- The target token file: whether it exists, its permission bits and its
persisted fields. -/
structure FileState where
  present : Bool
  perm : Nat
  content : List (String × String)
deriving DecidableEq

/-- The step of `SaveToken` at which an error occurred. -/
inductive SaveErr
  | createFail
  | lockFail
  | writeFail
  | syncFail
  | chmodFail
  | renameFail
deriving DecidableEq

/-- Outcomes of the fallible steps inside one `SaveToken` call. -/
structure SaveEnv where
  createOk : Bool
  lockOk : Bool
  writeOk : Bool
  syncOk : Bool
  chmodOk : Bool
  renameOk : Bool
deriving DecidableEq

/-- `SaveToken filename token perm`: returns the target file afterwards,
whether this call's temporary file remains on disk, and the error if any.
Mirrors lines 706–764: every step failure before the rename returns with
the deferred cleanup having removed the temporary file; a rename failure
happens after the cleanup was disabled, so the temporary file remains; the
target is mutated only by the successful rename. -/
def SaveTokenFS (env : SaveEnv) (target : FileState) (tok : Token) (perm : Nat) :
    FileState × Bool × Option SaveErr :=
  if ¬ env.createOk then (target, false, some .createFail)
  else if ¬ env.lockOk then (target, false, some .lockFail)
  else if ¬ env.writeOk then (target, false, some .writeFail)
  else if ¬ env.syncOk then (target, false, some .syncFail)
  else if ¬ env.chmodOk then (target, false, some .chmodFail)
  else if ¬ env.renameOk then (target, true, some .renameFail)
  else ({ present := true, perm := perm, content := marshalToken tok }, false, none)

/-- `TokenChanged` (oauth part, lines 811–817) for the non-nil tokens the
program passes: different access token or different expiry. -/
def TokenChanged (t1 t2 : Token) : Bool :=
  t1.accessToken != t2.accessToken || t1.expiry != t2.expiry

/-- `GetFilePermissions` (oauth part, lines 670–677): `os.Stat` succeeds
exactly when the file exists, yielding its permission bits. -/
def GetFilePermissions (st : FileState) : Option Nat :=
  if st.present then some st.perm else none

/-- `SaveTokenIfChanged` (oauth part, lines 819–836): no-op when the token
did not change; otherwise probes the current permission bits (falling back
to `0600` = 384 when the probe fails) and calls `SaveToken` with them. -/
def SaveTokenIfChangedFS (env : SaveEnv) (st : FileState) (original current : Token) :
    FileState × Bool × Option SaveErr :=
  if TokenChanged original current = false then (st, false, none)
  else
    let perm := match GetFilePermissions st with
      | some p => p
      | none => 384
    SaveTokenFS env st current perm

/-! ## The advisory lock on the temporary file

`acquireFileLock` (oauth part, lines 679–696) makes up to 50 non-blocking
`flock` attempts, sleeping 100 ms after each attempt that found the lock
held, and fails with a timeout error after the 50th. -/

/-- Outcome of one non-blocking `flock(LOCK_EX|LOCK_NB)` call. -/
inductive FlockOutcome
  | ok
  | wouldBlock
  | otherErr
deriving DecidableEq

/-- Observable actions of the lock-acquisition loop. -/
inductive LockEvent
  | attempt
  | sleep100ms
deriving DecidableEq

/-- Result of `acquireFileLock`. -/
inductive LockResult
  | acquired
  | failed
  | timedOut
deriving DecidableEq

/-- The loop of `acquireFileLock`: `f i` is the outcome of the `i`-th
`flock` attempt, `fuel` the remaining attempts. -/
def acquireGo (f : Nat → FlockOutcome) : Nat → Nat → List LockEvent × LockResult
  | _, 0 => ([], .timedOut)
  | i, fuel + 1 =>
    match f i with
    | .ok => ([.attempt], .acquired)
    | .otherErr => ([.attempt], .failed)
    | .wouldBlock =>
      let r := acquireGo f (i + 1) fuel
      (.attempt :: .sleep100ms :: r.1, r.2)

/-- `acquireFileLock` (lines 679–696), `maxAttempts = 50`. -/
def acquireFileLock (f : Nat → FlockOutcome) : List LockEvent × LockResult :=
  acquireGo f 0 50

/-- Total milliseconds slept by a lock-acquisition trace (100 ms per
sleep). -/
def lockSleepMs (tr : List LockEvent) : Nat :=
  100 * tr.count .sleep100ms

/-! ## Program-level event traces

The delivery `main` functions run a straight-line sequence of effectful
steps, exiting early when a step fails.  We model a run as the list of
observable events it performs, driven by a `RunEnv` fixing each step's
outcome.  Events record *completed* actions: `.loadToken` is a successful
token-file load, `.refreshExchange` a completed refresh exchange. -/

/-- Observable events of a delivery run. -/
inductive MEvent
  /-- A successful `LoadToken` of the token file. -/
  | loadToken
  /-- A successful permission probe (`GetFilePermissions`). -/
  | permProbe
  /-- A completed token-refresh network exchange. -/
  | refreshExchange
  /-- A `SaveToken` write of the token file. -/
  | saveToken
  /-- The deferred `SaveTokenIfChanged` persist step. -/
  | saveIfChanged
  /-- The `io.ReadAll(os.Stdin)` read of the input message stream. -/
  | readStdin
  /-- The delivery API call block (`retryOperation` around import/insert). -/
  | delivery
  /-- The post-delivery message re-fetch. -/
  | refetch
deriving DecidableEq

/-- Outcomes of a run's fallible steps (configuration loading and
validation are assumed to have succeeded; a run that fails them performs
none of the modelled events). -/
structure RunEnv where
  /-- `LoadToken` on the token file succeeds. -/
  tokenLoadOk : Bool
  /-- `LoadOAuthConfig` on the credentials file succeeds. -/
  oauthCfgOk : Bool
  /-- The stored access token is expired (or missing), so
  `tokenSource.Token()` performs a refresh exchange. -/
  tokenExpired : Bool
  /-- The refresh exchange succeeds. -/
  refreshOk : Bool
  /-- Saving the refreshed token during pre-validation succeeds. -/
  saveOk : Bool
  /-- `io.ReadAll(os.Stdin)` returns without error. -/
  stdinOk : Bool
  /-- The message read from stdin is empty. -/
  stdinEmpty : Bool
  /-- The delivery API call block ultimately succeeds. -/
  deliveryOk : Bool

/-- `validateAndRefreshToken` (`cmd/gmail-api-transport/main.go` lines
207–241; the same function appears in `src/unnamed/part_001` lines
175–209): load the token, load the OAuth config, obtain a fresh token
(refreshing when expired) and, if refreshed, save it.  Returns the events
performed and whether the function returned `nil`. -/
def validateAndRefreshTokenTr (e : RunEnv) : List MEvent × Bool :=
  if ¬ e.tokenLoadOk then ([], false)
  else if ¬ e.oauthCfgOk then ([.loadToken], false)
  else if e.tokenExpired then
    if ¬ e.refreshOk then ([.loadToken], false)
    else if e.saveOk then ([.loadToken, .refreshExchange, .saveToken], true)
    else ([.loadToken, .refreshExchange], false)
  else ([.loadToken], true)

/-- `RefreshAndSaveToken` (oauth part of `cmd/gmail-api-transport/main.go`,
lines 840–882): load OAuth config, load the token, probe its permission
bits, obtain a fresh token, and — if it was refreshed — save it at once (a
save failure there is only logged, not returned).  Returns the events and
whether the function returned `nil`. -/
def refreshAndSaveTokenTr (e : RunEnv) : List MEvent × Bool :=
  if ¬ e.oauthCfgOk then ([], false)
  else if ¬ e.tokenLoadOk then ([], false)
  else if e.tokenExpired then
    if ¬ e.refreshOk then ([.loadToken, .permProbe], false)
    else ([.loadToken, .permProbe, .refreshExchange, .saveToken], true)
  else ([.loadToken, .permProbe], true)

/-- `deliverMessage` (`cmd/gmail-api-transport/main.go` lines 459–567; the
revision in `src/unnamed/part_001` lines 320–434 is structurally
identical): load the original token, create the service via
`RefreshAndSaveToken`, register the deferred `SaveTokenIfChanged`, run the
delivery call under retry, re-fetch on success, and run the deferred save
on every exit after service creation. -/
def deliverMessageTr (e : RunEnv) : List MEvent :=
  if ¬ e.tokenLoadOk then []
  else
    let r := refreshAndSaveTokenTr e
    if ¬ r.2 then .loadToken :: r.1
    else
      .loadToken :: r.1 ++ [.delivery] ++
        (if e.deliveryOk then [.refetch] else []) ++ [.saveIfChanged]

/-- The delivery path of `main` in `cmd/gmail-api-transport/main.go`
(lines 137–168, non-`--test-api` mode): pre-validate and refresh the token,
exit on failure, then read stdin, then deliver. -/
def apiMainTr (e : RunEnv) : List MEvent :=
  let v := validateAndRefreshTokenTr e
  if ¬ v.2 then v.1
  else
    v.1 ++ [.readStdin] ++
      (if e.stdinOk && !e.stdinEmpty then deliverMessageTr e else [])

/-- The delivery path of `main` in the revision `src/unnamed/part_001`
(lines 117–144): same ordering — validate and refresh, then read stdin,
then deliver. -/
def part001MainTr (e : RunEnv) : List MEvent :=
  let v := validateAndRefreshTokenTr e
  if ¬ v.2 then v.1
  else
    v.1 ++ [.readStdin] ++
      (if e.stdinOk && !e.stdinEmpty then deliverMessageTr e else [])

/-- `deliverMessage` of the revision `src/unnamed/part_000` (lines
322–404): create the service (`getGmailService` reads the credentials and
then loads the token; no refresh exchange or save is modelled — the lazy
refresh happens inside the delivery HTTP call), deliver, re-fetch.  That
revision never saves the token. -/
def part000DeliverTr (e : RunEnv) : List MEvent :=
  if ¬ e.oauthCfgOk then []
  else if ¬ e.tokenLoadOk then []
  else [.loadToken, .delivery] ++ (if e.deliveryOk then [.refetch] else [])

/-- The delivery path of `main` in the revision `src/unnamed/part_000`
(lines 129–148): it reads stdin first and only then, inside
`deliverMessage`, loads the token. -/
def part000MainTr (e : RunEnv) : List MEvent :=
  .readStdin :: (if e.stdinOk && !e.stdinEmpty then part000DeliverTr e else [])

/-- Past-time check for the spec's ordering guarantee: every `.readStdin`
in the trace is preceded by a completed token load and, when the stored
token was expired, also by a completed refresh exchange.  `loaded` and
`refreshed` accumulate what has happened so far. -/
def stdinGuardGo (expired : Bool) : List MEvent → Bool → Bool → Bool
  | [], _, _ => true
  | .readStdin :: rest, loaded, refreshed =>
    (loaded && (!expired || refreshed)) && stdinGuardGo expired rest loaded refreshed
  | .loadToken :: rest, _, refreshed => stdinGuardGo expired rest true refreshed
  | .refreshExchange :: rest, loaded, _ => stdinGuardGo expired rest loaded true
  | _ :: rest, loaded, refreshed => stdinGuardGo expired rest loaded refreshed

/-- Entry point of the ordering check: nothing loaded or refreshed yet. -/
def stdinGuard (expired : Bool) (tr : List MEvent) : Bool :=
  stdinGuardGo expired tr false false

/-- Checks that some occurrence of `a` precedes some occurrence of `b` in
the trace. -/
def occursBefore (a b : MEvent) : List MEvent → Bool
  | [] => false
  | x :: rest => if x = a then rest.contains b else occursBefore a b rest

/-- Checks that no token-persist event (`.saveToken` or `.saveIfChanged`)
occurs before the first `.delivery` event. -/
def savesOnlyAfterDelivery : List MEvent → Bool
  | [] => true
  | .delivery :: _ => true
  | .saveToken :: _ => false
  | .saveIfChanged :: _ => false
  | _ :: rest => savesOnlyAfterDelivery rest

/-! # Theorems -/

/-! ## Helper lemmas for the lock-acquisition loop -/

/-- The lock loop makes at most `fuel` flock attempts. -/
theorem acquireGoCountAttempt (f : Nat → FlockOutcome) :
    ∀ fuel i, ((acquireGo f i fuel).1.count LockEvent.attempt) ≤ fuel := by
  intro fuel
  induction fuel with
  | zero => intro i; simp [acquireGo]
  | succ n ih =>
    intro i
    cases h : f i <;> simp [acquireGo, h, List.count_cons]
    exact ih (i + 1)

/-- The lock loop sleeps at most `fuel` times. -/
theorem acquireGoCountSleep (f : Nat → FlockOutcome) :
    ∀ fuel i, ((acquireGo f i fuel).1.count LockEvent.sleep100ms) ≤ fuel := by
  intro fuel
  induction fuel with
  | zero => intro i; simp [acquireGo]
  | succ n ih =>
    intro i
    cases h : f i <;> simp [acquireGo, h, List.count_cons]
    exact ih (i + 1)

/-- If every attempt within the budget finds the lock held, the loop ends
in the timeout error. -/
theorem acquireGoTimeout (f : Nat → FlockOutcome) :
    ∀ fuel i, (∀ j, j < fuel → f (i + j) = .wouldBlock) →
      (acquireGo f i fuel).2 = .timedOut := by
  intro fuel
  induction fuel with
  | zero => intro i _; rfl
  | succ n ih =>
    intro i h
    have h0 : f i = .wouldBlock := by simpa using h 0 (Nat.succ_pos n)
    simp only [acquireGo, h0]
    apply ih
    intro j hj
    have := h (j + 1) (Nat.succ_lt_succ hj)
    simpa [Nat.add_assoc, Nat.add_comm, Nat.add_left_comm] using this

/-! ## C1 — stdin is read only after the credential is confirmed usable -/

/-- C1 counterexample: the claim fails on the delivery revision in
`src/unnamed/part_000` (cited by the claim): with an expired stored token
and all steps succeeding, that program's run reads stdin as its very first
action — before any token load, and before any refresh exchange. -/
theorem c1_part000_reads_stdin_before_token_load :
    part000MainTr ⟨true, true, true, true, true, true, false, true⟩ =
      [.readStdin, .loadToken, .delivery, .refetch] ∧
    stdinGuard true (part000MainTr ⟨true, true, true, true, true, true, false, true⟩) = false := by
  decide

/-- C1 amended: in the current delivery entry point
(`cmd/gmail-api-transport/main.go`) and in the revision
`src/unnamed/part_001`, every run reads stdin only after a completed token
load and — when the stored token was expired — a completed refresh
exchange; the historical revision `src/unnamed/part_000` instead reads
stdin before any token handling. -/
theorem c1_stdin_read_after_credential_confirmed :
    ∀ (a b c d f g h i : Bool),
      stdinGuard c (apiMainTr ⟨a, b, c, d, f, g, h, i⟩) = true ∧
      stdinGuard c (part001MainTr ⟨a, b, c, d, f, g, h, i⟩) = true := by
  decide

/-! ## C2 — three retryable failures then success -/

/-- C2: with `MaxRetries = 3` and an operation that fails retryably on its
first three invocations and succeeds on the fourth, `RetryOperation`
returns success; its trace performs no sleep before the first invocation
and sleeps `min (base*1) 60`, `min (base*2) 60`, `min (base*4) 60` seconds
(the cap at 60) before the three retries, in that order. -/
theorem c2_three_retryable_then_success (b : Nat) (ops : Nat → Outcome)
    (h0 : ops 0 = .retryable) (h1 : ops 1 = .retryable)
    (h2 : ops 2 = .retryable) (h3 : ops 3 = .success) :
    RetryOperation 3 b ops =
      ([.invoke, .sleep (min (b * 1) 60), .invoke, .sleep (min (b * 2) 60),
        .invoke, .sleep (min (b * 4) 60), .invoke], .ok) := by
  simp [RetryOperation, retryGo, h0, h1, h2, h3, CalculateBackoff]

/-- C2 witness: the scenario at `base_delay = 2` with a concrete operation. -/
theorem c2_three_retryable_then_success_witness :
    (fun n => if n < 3 then Outcome.retryable else .success) 0 = .retryable ∧
    (fun n => if n < 3 then Outcome.retryable else .success) 1 = .retryable ∧
    (fun n => if n < 3 then Outcome.retryable else .success) 2 = .retryable ∧
    (fun n => if n < 3 then Outcome.retryable else .success) 3 = .success ∧
    RetryOperation 3 2 (fun n => if n < 3 then Outcome.retryable else .success) =
      ([.invoke, .sleep (min (2 * 1) 60), .invoke, .sleep (min (2 * 2) 60),
        .invoke, .sleep (min (2 * 4) 60), .invoke], .ok) :=
  ⟨rfl, rfl, rfl, rfl,
    c2_three_retryable_then_success 2 (fun n => if n < 3 then Outcome.retryable else .success)
      rfl rfl rfl rfl⟩

/-! ## C3 — EOF / broken pipe / UNAVAILABLE classification -/

/-- C3 counterexample: the error message `"unexpected EOF"` is an
unexpected-stream-end condition, yet the classifier local to
`cmd/gmail-api-transport/main.go` — the one its delivery retry loop uses —
classifies it as non-retryable (it never checks `"EOF"`, `"broken pipe"`
or `"UNAVAILABLE"`). -/
theorem c3_main_classifier_misses_eof :
    containsSub "EOF" "unexpected EOF" = true ∧
    isRetryableErrorMain (some (.strError "unexpected EOF")) = false ∧
    isRetryableErrorMain (some (.strError "write: broken pipe")) = false := by
  decide

/-- C3 amended: the shared delivery classifier
`internal/retry.go IsRetryableError` classifies every error whose message
signals an unexpected stream end (`"EOF"`), a broken pipe or a
transport-level unavailability (`"UNAVAILABLE"`) as retryable; the
duplicate classifier in `cmd/gmail-api-transport/main.go` omits those
checks and returns false for them. -/
theorem c3_shared_classifier_retries_eof_pipe_unavailable (s : String)
    (h : containsSub "EOF" s = true ∨ containsSub "broken pipe" s = true ∨
         containsSub "UNAVAILABLE" s = true) :
    IsRetryableError (some (.strError s)) = true := by
  show isRetryableStrInternal s = true
  unfold isRetryableStrInternal
  split_ifs with h1 h2 <;> try rfl
  all_goals (exfalso; simp only [Bool.or_eq_true] at h2; rcases h with h | h | h <;> tauto)

/-- C3 witness: the shared classifier retries `"unexpected EOF"`. -/
theorem c3_shared_classifier_witness :
    (containsSub "EOF" "unexpected EOF" = true ∨
     containsSub "broken pipe" "unexpected EOF" = true ∨
     containsSub "UNAVAILABLE" "unexpected EOF" = true) ∧
    IsRetryableError (some (.strError "unexpected EOF")) = true :=
  ⟨Or.inl (by decide),
    c3_shared_classifier_retries_eof_pipe_unavailable "unexpected EOF" (Or.inl (by decide))⟩

/-! ## C4 — unknown fields across a load→save cycle -/

/-- C4 counterexample: a token file holding the extra field `"scope"` loses
it across `LoadToken` followed by `SaveToken`: unmarshalling into the fixed
token struct discards unknown keys and marshalling writes only the struct's
own fields. -/
theorem c4_extra_field_dropped :
    ("scope", "mail") ∈ ([("access_token", "a"), ("refresh_token", "r"),
        ("expiry", "2030-01-01"), ("scope", "mail")] : List (String × String)) ∧
    loadSaveCycle [("access_token", "a"), ("refresh_token", "r"),
        ("expiry", "2030-01-01"), ("scope", "mail")] =
      [("access_token", "a"), ("refresh_token", "r"), ("expiry", "2030-01-01")] ∧
    ¬ ("scope", "mail") ∈ loadSaveCycle [("access_token", "a"), ("refresh_token", "r"),
        ("expiry", "2030-01-01"), ("scope", "mail")] := by
  decide

/-- C4 amended: a load→save cycle preserves no unknown fields — every field
of the rewritten file is one of the token-struct fields this system
understands (`access_token`, `token_type`, `refresh_token`, `expiry`);
fields beyond those are dropped, not round-tripped. -/
theorem c4_only_known_fields_survive (fields : List (String × String)) (k v : String)
    (h : (k, v) ∈ loadSaveCycle fields) : k ∈ knownTokenFields := by
  unfold loadSaveCycle marshalToken at h
  simp only [List.mem_cons, List.mem_append] at h
  rcases h with h | ((h | h) | h)
  · rw [Prod.mk.injEq] at h
    simp [knownTokenFields, h.1]
  · split_ifs at h
    · simp at h
    · simp only [List.mem_singleton, Prod.mk.injEq] at h
      simp [knownTokenFields, h.1]
  · split_ifs at h
    · simp at h
    · simp only [List.mem_singleton, Prod.mk.injEq] at h
      simp [knownTokenFields, h.1]
  · split_ifs at h
    · simp at h
    · simp only [List.mem_singleton, Prod.mk.injEq] at h
      simp [knownTokenFields, h.1]

/-- C4 witness: the surviving `access_token` field is a known field. -/
theorem c4_only_known_fields_survive_witness :
    ("access_token", "a") ∈ loadSaveCycle [("access_token", "a"), ("scope", "mail")] ∧
    "access_token" ∈ knownTokenFields :=
  ⟨by decide,
    c4_only_known_fields_survive [("access_token", "a"), ("scope", "mail")]
      "access_token" "a" (by decide)⟩

/-! ## C5 — saves preserve the observed permission bits -/

/-- C5: whenever the permission probe inside `SaveTokenIfChanged` succeeds
(the token file is present), the file's permission bits after the call —
whether it wrote, failed at any step, or skipped the write — equal the bits
that probe observed, i.e. the bits at the most recent successful read of
the file: the save path never widens or narrows access. -/
theorem c5_save_preserves_observed_perm (env : SaveEnv) (st : FileState) (o c : Token)
    (h : st.present = true) :
    ((SaveTokenIfChangedFS env st o c).1).perm = st.perm := by
  simp only [SaveTokenIfChangedFS, SaveTokenFS, GetFilePermissions, h, if_true]
  split_ifs <;> simp_all

/-- C5 witness: a changed token written over a file with bits `0644 = 420`
leaves the bits at 420. -/
theorem c5_save_preserves_observed_perm_witness :
    (FileState.mk true 420 []).present = true ∧
    ((SaveTokenIfChangedFS ⟨true, true, true, true, true, true⟩ ⟨true, 420, []⟩
        ⟨"a", "", "r", "e1"⟩ ⟨"b", "", "r", "e2"⟩).1).perm = (FileState.mk true 420 []).perm :=
  ⟨rfl,
    c5_save_preserves_observed_perm ⟨true, true, true, true, true, true⟩ ⟨true, 420, []⟩
      ⟨"a", "", "r", "e1"⟩ ⟨"b", "", "r", "e2"⟩ rfl⟩

/-! ## C6 — when the just-in-time refresh is persisted -/

/-- C6 counterexample: in `deliverMessage` with an expired stored token and
all steps succeeding, `RefreshAndSaveToken` persists the refreshed token
(`.saveToken`) *before* the delivery call is made — the claim's "never
before the delivery call" fails. -/
theorem c6_refresh_saved_before_delivery :
    deliverMessageTr ⟨true, true, true, true, true, true, false, true⟩ =
      [.loadToken, .loadToken, .permProbe, .refreshExchange, .saveToken,
       .delivery, .refetch, .saveIfChanged] ∧
    savesOnlyAfterDelivery
      (deliverMessageTr ⟨true, true, true, true, true, true, false, true⟩) = false := by
  decide

/-- C6 amended: a just-in-time refresh while preparing the delivery call is
persisted twice: immediately by `RefreshAndSaveToken` — before the delivery
call, with a save failure only logged — and again by the deferred
`SaveTokenIfChanged` after the delivery attempt completes, whether the
delivery succeeded or failed. -/
theorem c6_refresh_saved_before_and_after_delivery :
    ∀ (f g h i : Bool),
      occursBefore .saveToken .delivery
        (deliverMessageTr ⟨true, true, true, true, f, g, h, i⟩) = true ∧
      occursBefore .delivery .saveIfChanged
        (deliverMessageTr ⟨true, true, true, true, f, g, h, i⟩) = true := by
  decide

/-! ## C7 — max_attempts = 0 -/

/-- C7 counterexample: the configuration layer does not honor a configured
0 — `validateConfig` / `ValidateCommon` replace `max_retries = 0` with the
default 3, after which a persistently retryable operation is invoked 4
times, not once. -/
theorem c7_zero_replaced_by_default :
    validateMaxRetries 0 = 3 ∧
    (RetryOperation 3 1 (fun _ => .retryable)).1.count .invoke = 4 := by
  decide

/-- C7 amended: the retry loop itself honors 0 — `RetryOperation` with
`MaxRetries = 0` produces the trace `[invoke]` (exactly one invocation, no
sleep) for every operation outcome — but the configuration layer replaces
a configured 0 with the default 3 before the loop ever sees it. -/
theorem c7_zero_means_single_attempt (d : Nat) (ops : Nat → Outcome) :
    (RetryOperation 0 d ops).1 = [.invoke] ∧ validateMaxRetries 0 = 3 := by
  refine ⟨?_, rfl⟩
  cases h : ops 0 <;> simp [RetryOperation, retryGo, h]

/-! ## C8 — bounded lock acquisition -/

/-- C8: `acquireFileLock` performs at most 50 non-blocking flock attempts
and at most 50 intervening 100 ms sleeps (at most 5000 ms asleep in
total), and when every attempt within that bound finds the lock held by
another process it returns the timeout error instead of blocking. -/
theorem c8_lock_acquisition_bounded (f : Nat → FlockOutcome) :
    (acquireFileLock f).1.count .attempt ≤ 50 ∧
    lockSleepMs (acquireFileLock f).1 ≤ 5000 ∧
    ((∀ i, i < 50 → f i = .wouldBlock) → (acquireFileLock f).2 = .timedOut) := by
  refine ⟨acquireGoCountAttempt f 50 0, ?_, ?_⟩
  · have := acquireGoCountSleep f 50 0
    unfold lockSleepMs acquireFileLock
    omega
  · intro h
    exact acquireGoTimeout f 50 0 (by simpa using h)

/-- C8 witness: a lock permanently held by a sibling process yields the
timeout error. -/
theorem c8_lock_acquisition_bounded_witness :
    (∀ i, i < 50 → (fun _ => FlockOutcome.wouldBlock) i = .wouldBlock) ∧
    (acquireFileLock (fun _ => .wouldBlock)).2 = .timedOut :=
  ⟨fun _ _ => rfl,
    (c8_lock_acquisition_bounded (fun _ => .wouldBlock)).2.2 (fun _ _ => rfl)⟩

/-! ## C9 — unchanged token means zero writes -/

/-- C9: when the original and current tokens agree on `access_token` and
`expiry`, `SaveTokenIfChanged` returns without error, leaves the token file
(content, permission bits, existence) untouched and leaves no temporary
file: zero filesystem writes. -/
theorem c9_unchanged_token_zero_writes (env : SaveEnv) (st : FileState) (o c : Token)
    (ha : o.accessToken = c.accessToken) (he : o.expiry = c.expiry) :
    SaveTokenIfChangedFS env st o c = (st, false, none) := by
  have hc : TokenChanged o c = false := by simp [TokenChanged, ha, he]
  simp [SaveTokenIfChangedFS, hc]

/-- C9 witness: tokens differing only in `refresh_token` cause no write. -/
theorem c9_unchanged_token_zero_writes_witness :
    (Token.mk "a" "" "r1" "e").accessToken = (Token.mk "a" "" "r2" "e").accessToken ∧
    (Token.mk "a" "" "r1" "e").expiry = (Token.mk "a" "" "r2" "e").expiry ∧
    SaveTokenIfChangedFS ⟨true, true, true, true, true, true⟩ ⟨true, 420, []⟩
      ⟨"a", "", "r1", "e"⟩ ⟨"a", "", "r2", "e"⟩ = (⟨true, 420, []⟩, false, none) :=
  ⟨rfl, rfl,
    c9_unchanged_token_zero_writes ⟨true, true, true, true, true, true⟩ ⟨true, 420, []⟩
      ⟨"a", "", "r1", "e"⟩ ⟨"a", "", "r2", "e"⟩ rfl rfl⟩

/-! ## C10 — SaveToken errors leave the target untouched -/

/-- C10: whenever `SaveToken` returns an error, the target token file is
exactly what it was before the call (it is mutated solely by the final
atomic rename), and for every failure at a step before the rename the
temporary file has been closed and removed by the deferred cleanup. -/
theorem c10_save_error_leaves_target_unchanged (env : SaveEnv) (target : FileState)
    (tok : Token) (perm : Nat) (e : SaveErr)
    (h : (SaveTokenFS env target tok perm).2.2 = some e) :
    (SaveTokenFS env target tok perm).1 = target ∧
    (e ≠ .renameFail → (SaveTokenFS env target tok perm).2.1 = false) := by
  unfold SaveTokenFS at h ⊢
  split_ifs at h ⊢ <;> simp_all

/-- C10 witness: a lock-acquisition failure leaves the target file as it
was and no temporary file behind. -/
theorem c10_save_error_leaves_target_unchanged_witness :
    (SaveTokenFS ⟨true, false, true, true, true, true⟩ ⟨true, 420, [("access_token", "a")]⟩
        ⟨"b", "", "r", "e"⟩ 420).2.2 = some .lockFail ∧
    ((SaveTokenFS ⟨true, false, true, true, true, true⟩ ⟨true, 420, [("access_token", "a")]⟩
        ⟨"b", "", "r", "e"⟩ 420).1 = ⟨true, 420, [("access_token", "a")]⟩ ∧
      (SaveErr.lockFail ≠ .renameFail →
        (SaveTokenFS ⟨true, false, true, true, true, true⟩ ⟨true, 420, [("access_token", "a")]⟩
          ⟨"b", "", "r", "e"⟩ 420).2.1 = false)) :=
  ⟨by decide,
    c10_save_error_leaves_target_unchanged ⟨true, false, true, true, true, true⟩
      ⟨true, 420, [("access_token", "a")]⟩ ⟨"b", "", "r", "e"⟩ 420 .lockFail (by decide)⟩

end Gmail
